import Mathlib

/-!
# Verification of the subject-model training pipeline

A shallow embedding of `src/train_subject_models.py` (repository
`pleask/bounding-mi`) together with theorems settling the specification
claims about it.

Modelling conventions:
* Tensors of scalars are `List ℝ`; a sub-batch pairing inputs with labels is
  `List ℝ × List ℝ`.  Torch floats are modelled as real numbers.
* Randomness (`torch.rand`, `random.random`) is modelled by explicit streams
  of values passed in as function arguments; a hypothesis `0 ≤ r ∧ r < 1`
  stands for the range of the underlying uniform sampler.
* A network is its forward function together with its train/eval mode flag;
  one optimizer update (zero_grad / forward / MSE loss / backward /
  `optimizer.step()` of the Adam optimizer, including the optimizer's
  internal state) is an opaque `update` function supplied as a parameter,
  since autograd is an external collaborator of the script.
* The training loop additionally records a trace of events (dataset
  generation, individual optimizer steps) so that claims about the loop's
  structure are statements about the trace.
* Exceptions (`ValueError`, the `NameError` in `evaluate_subject_nets` when
  called with no networks) are `Except.error`.
-/

namespace TrainSubjectModels

/-- `SUBJECT_LAYER_SIZE = 25` from the source (unused by the claims but part
of the data model). -/
def SUBJECT_LAYER_SIZE : ℕ := 25

/-- `SUBJECT_BATCH_SIZE = 2**15` from the source. -/
def SUBJECT_BATCH_SIZE : ℕ := 2 ^ 15

attribute [irreducible] SUBJECT_BATCH_SIZE

/-- The fixed registry of function names, in source order. -/
def FUNCTION_NAMES : List String :=
  ["addition", "multiplication", "sigmoid", "exponent", "min"]

/-- The logistic sigmoid, as the spec's closed form `sigmoid(z)` reads:
`1/(1+exp(-z))`.  (The source writes this expression inline.) -/
noncomputable def sigmoid (z : ℝ) : ℝ := 1 / (1 + Real.exp (-z))

/-- `get_subject_fn(fn_name, param)` from the source: returns the labelling
function for a registered name, and raises `ValueError` (modelled as
`Except.error`) for any other name.  Each branch is the source's lambda with
the parameter `c` already applied (`functools.partial`). -/
noncomputable def get_subject_fn (fn_name : String) (param : ℝ) :
    Except String (ℝ → ℝ) :=
  if fn_name = FUNCTION_NAMES[0]! then
    Except.ok (fun x => x + param * 10 * 5)
  else if fn_name = FUNCTION_NAMES[1]! then
    Except.ok (fun x => x * param * 10)
  else if fn_name = FUNCTION_NAMES[2]! then
    Except.ok (fun x => 20 * (1 / (1 + Real.exp (-(x + param))) - 0.5))
  else if fn_name = FUNCTION_NAMES[3]! then
    Except.ok (fun x => Real.rpow x (param / 2))
  else if fn_name = FUNCTION_NAMES[4]! then
    Except.ok (fun x => min param x)
  else
    Except.error ("Invalid function name: " ++ fn_name)

/-- `get_subject_data(fn, batch_count=2**10)` from the source: one sub-batch
`i` holds the inputs `rand i j * 10.0` for `j < SUBJECT_BATCH_SIZE` paired
with the labels `fn` of those inputs (`torch.cat((x, y), dim=1)` plus the
trailing singleton dimension make the shape `(batch_count, 2,
SUBJECT_BATCH_SIZE, 1)`; here a sub-batch is the pair of its two rows).
`rand` is the stream of `torch.rand` draws, one value per `(sub-batch,
element)` position. -/
noncomputable def get_subject_data (fn : ℝ → ℝ) (rand : ℕ → ℕ → ℝ)
    (batch_count : ℕ := 2 ^ 10) : List (List ℝ × List ℝ) :=
  (List.range batch_count).map fun i =>
    let xs := (List.range SUBJECT_BATCH_SIZE).map fun j => rand i j * 10
    (xs, xs.map fn)

/-- A network's train/eval mode flag (`module.training` in torch). -/
inductive Mode where
  | train
  | eval
deriving DecidableEq, Inhabited

/-- A subject network: its forward function and its mode flag.  Parameters
and the architecture `1→25→25→1` live inside `forward`, which training
updates opaquely. -/
structure Net where
  forward : ℝ → ℝ
  mode : Mode

instance : Inhabited Net := ⟨⟨fun x => x, Mode.train⟩⟩

/-- `get_subject_net()`: a fresh network with the given (randomly
initialised) forward function; torch modules start in training mode. -/
def get_subject_net (init : ℝ → ℝ) : Net := ⟨init, Mode.train⟩

/-- `nn.MSELoss()`: mean of the squared differences. -/
noncomputable def mse (outputs labels : List ℝ) : ℝ :=
  (((outputs.zip labels).map fun p => (p.1 - p.2) ^ 2).sum) /
    ((outputs.zip labels).length)

/-- One observable event of `train_subject_nets`: generating the training
dataset of network `netIdx` before the epoch loop, or one optimizer update
of network `netIdx` at `(epoch, batchIdx)` using the recorded sub-batch. -/
inductive TrainEvent where
  | genData (netIdx : ℕ) (data : List (List ℝ × List ℝ))
  | step (epoch batchIdx netIdx : ℕ) (inputs labels : List ℝ)

/-- Is this event an optimizer step of network `n`? -/
def isStepOf (n : ℕ) : TrainEvent → Bool
  | TrainEvent.step _ _ m _ _ => m = n
  | _ => false

/-- Is this event an optimizer step at epoch `e`, sub-batch index `b`, of
network `n`? -/
def isStepAt (e b n : ℕ) : TrainEvent → Bool
  | TrainEvent.step e' b' n' _ _ => e' = e && b' = b && n' = n
  | _ => false

/-- Is this event an optimizer step in epoch `e`? -/
def isStepInEpoch (e : ℕ) : TrainEvent → Bool
  | TrainEvent.step e' _ _ _ _ => e' = e
  | _ => false

/-- Is this event a dataset generation? -/
def isGenData : TrainEvent → Bool
  | TrainEvent.genData _ _ => true
  | _ => false

/-- The local `training_data = [get_subject_data(fn) for fn in fns]`: the
`n`-th comprehension iteration consumes the random stream `rands n`. -/
noncomputable def training_data_of (fns : List (ℝ → ℝ))
    (rands : ℕ → ℕ → ℕ → ℝ) : List (List (List ℝ × List ℝ)) :=
  fns.enum.map fun nf => get_subject_data nf.2 (rands nf.1)

/-- The dataset-generation events: one per entry of `training_data`, emitted
before the epoch loop starts. -/
noncomputable def gen_events_of (fns : List (ℝ → ℝ))
    (rands : ℕ → ℕ → ℕ → ℝ) : List TrainEvent :=
  (training_data_of fns rands).enum.map fun nd =>
    TrainEvent.genData nd.1 nd.2

/-- The optimizer-step events of the epoch loop, in program order:
`for epoch in range(epochs): for batch_idx in range(len(training_data)):
for net, data, optimizer in zip(...)`.  The zip runs over
`min nets.length training_data.length` triples, and each step reads
sub-batch `batch_idx` of its own network's dataset. -/
noncomputable def train_step_events (nets : List Net) (fns : List (ℝ → ℝ))
    (epochs : ℕ) (rands : ℕ → ℕ → ℕ → ℝ) : List TrainEvent :=
  (List.range epochs).flatMap fun epoch =>
    (List.range (training_data_of fns rands).length).flatMap fun batch_idx =>
      (List.range
          (min nets.length (training_data_of fns rands).length)).map fun n =>
        TrainEvent.step epoch batch_idx n
          (((training_data_of fns rands)[n]!)[batch_idx]!).1
          (((training_data_of fns rands)[n]!)[batch_idx]!).2

/-- `train_subject_nets(nets, fns, epochs, weight_decay)` from the source.
`rands n` is the `torch.rand` stream consumed by the `n`-th
`get_subject_data` call; `update weight_decay net inputs labels` is the
opaque optimizer update of one network on one sub-batch (zero_grad /
forward / MSE loss / backward / Adam step).  Returns the trained networks
and the trace: the dataset-generation events followed by the optimizer-step
events.  The source's inner loop is literally `for batch_idx in
range(len(training_data))`, so `batch_idx` ranges over the *number of
datasets* (= number of networks), not over the `2**10` sub-batches of each
dataset. -/
noncomputable def train_subject_nets (nets : List Net) (fns : List (ℝ → ℝ))
    (epochs : ℕ) (weight_decay : ℝ) (rands : ℕ → ℕ → ℕ → ℝ)
    (update : ℝ → Net → List ℝ → List ℝ → Net) :
    List Net × List TrainEvent :=
  let stepEvents := train_step_events nets fns epochs rands
  let finalNets := stepEvents.foldl (fun ns ev =>
    match ev with
    | TrainEvent.step _ _ n inputs labels =>
        ns.set n (update weight_decay ns[n]! inputs labels)
    | _ => ns) nets
  (finalNets, gen_events_of fns rands ++ stepEvents)

/-- What `evaluate_subject_nets` returns (and leaves behind): the losses in
input order, the networks after their `net.eval()` calls, and the sample
`(label, prediction)` pairs printed at the end — taken from the loop
variables `labels`/`outputs` left over from the *last* iteration. -/
structure EvalResult where
  losses : List ℝ
  nets : List Net
  printed : List (ℝ × ℝ)

/-- `evaluate_subject_nets(nets, fns)` from the source.  For each
`(net, fn)` pair (in order): draw one fresh batch with `batch_count=1` from
the evaluation random stream `rands i`, switch the network to eval mode,
forward the inputs, record the MSE loss.  After the loop the source prints
the first 10 `(label, prediction)` pairs of the then-current `labels` and
`outputs` variables; with no networks those variables were never bound and
Python raises `NameError`, modelled as `Except.error`.

`eval_items` is the loop of `evaluate_subject_nets`: the quadruple it
computes for the `i`-th `(net, fn)` pair is `(loss, net after
\`net.eval()\`, labels, outputs)`, the loop's per-iteration observable
state. -/
noncomputable def eval_items (nets : List Net) (fns : List (ℝ → ℝ))
    (rands : ℕ → ℕ → ℕ → ℝ) : List (ℝ × Net × List ℝ × List ℝ) :=
  (nets.zip fns).enum.map fun t =>
    let eval_data := (get_subject_data t.2.2 (rands t.1) 1)[0]!
    let inputs := eval_data.1
    let labels := eval_data.2
    let netE : Net := { t.2.1 with mode := Mode.eval }
    let outputs := inputs.map netE.forward
    (mse outputs labels, netE, labels, outputs)

/-- The `n`-th quadruple of `eval_items`, written out: fresh batch
`get_subject_data fn 1`, eval-mode copy of the network, outputs by the
network's (unchanged) forward function. -/
noncomputable def eval_item (nets : List Net) (fns : List (ℝ → ℝ))
    (rands : ℕ → ℕ → ℕ → ℝ) (n : ℕ) : ℝ × Net × List ℝ × List ℝ :=
  (mse (((get_subject_data fns[n]! (rands n) 1)[0]!).1.map
        (nets[n]!.forward))
      ((get_subject_data fns[n]! (rands n) 1)[0]!).2,
   ⟨nets[n]!.forward, Mode.eval⟩,
   ((get_subject_data fns[n]! (rands n) 1)[0]!).2,
   ((get_subject_data fns[n]! (rands n) 1)[0]!).1.map (nets[n]!.forward))

noncomputable def evaluate_subject_nets (nets : List Net)
    (fns : List (ℝ → ℝ)) (rands : ℕ → ℕ → ℕ → ℝ) :
    Except String EvalResult :=
  match (eval_items nets fns rands).getLast? with
  | none => Except.error "NameError: name labels is not defined"
  | some last =>
      Except.ok
        { losses := (eval_items nets fns rands).map fun q => q.1
          nets := (eval_items nets fns rands).map fun q => q.2.1
          printed := (last.2.2.1.take 10).zip (last.2.2.2.take 10) }

/-- The run metadata record written next to each model
(`{fn_name, parameter, loss, seed, weight_decay, epochs}`). -/
structure Metadata where
  fn_name : String
  parameter : ℝ
  loss : ℝ
  seed : Int
  weight_decay : ℝ
  epochs : ℕ

instance : Inhabited Metadata := ⟨⟨"", 0, 0, 0, 0, 0⟩⟩

/-- What a persisted file holds: a network's parameter state
(`torch.save(net.state_dict(), ...)`) or a metadata record as JSON. -/
inductive FileContent where
  | stateDict (net : Net)
  | metadataJson (md : Metadata)

/-- `get_model_path = lambda path, net_idx: f"{path}/{net_idx}.pickle"`. -/
def get_model_path (path : String) (net_id : String) : String :=
  path ++ "/" ++ net_id ++ ".pickle"

/-- `get_metadata_path = lambda path, net_idx:
f"{path}/{net_idx}_metadata.json"`. -/
def get_metadata_path (path : String) (net_id : String) : String :=
  path ++ "/" ++ net_id ++ "_metadata.json"

/-- The CLI arguments of the script. -/
structure Args where
  path : String
  count : ℕ
  seed : Int
  fn_name : String
  epochs : ℕ
  weight_decay : ℝ

/-- The list comprehension
`[get_subject_fn(args.fn_name, parameter) for parameter in parameters]`:
sequential, aborting at the first `ValueError`. -/
noncomputable def build_fns (fn_name : String) :
    List ℝ → Except String (List (ℝ → ℝ))
  | [] => Except.ok []
  | p :: rest => do
      let f ← get_subject_fn fn_name p
      let fs ← build_fns fn_name rest
      Except.ok (f :: fs)

/-- The saving loop `for i, (net, md) in enumerate(zip(nets, metadata))`:
each iteration draws the next fresh identifier `uuids i` and writes the
model file then the metadata file. -/
noncomputable def save_loop (path : String) (uuids : ℕ → String) :
    ℕ → List (Net × Metadata) → List (String × FileContent)
  | _, [] => []
  | i, nm :: rest =>
      (get_model_path path (uuids i), FileContent.stateDict nm.1) ::
      (get_metadata_path path (uuids i), FileContent.metadataJson nm.2) ::
      save_loop path uuids (i + 1) rest

/-- Everything observable about one run of the `__main__` block: the
outcome (normal termination or the exception that escaped), the top-level
lists the script builds, the training trace, and the files written. -/
structure MainResult where
  outcome : Except String Unit
  nets : List Net
  parameters : List ℝ
  fns : List (ℝ → ℝ)
  trainEvents : List TrainEvent
  losses : List ℝ
  metadata : List Metadata
  writes : List (String × FileContent)

/-- The `__main__` block of the source.  `randSeq` is the `random.random()`
stream seeded by `args.seed`; `netInit i` the `i`-th freshly initialised
forward function; `trainRands` / `evalRands` the `torch.rand` streams
consumed while training / evaluating; `update` the opaque one-sub-batch
optimizer update; `uuids` the `uuid.uuid4()` stream.  Effects after an
exception do not happen: the corresponding trace fields stay empty. -/
noncomputable def main_run (args : Args) (randSeq : ℕ → ℝ)
    (netInit : ℕ → ℝ → ℝ) (trainRands evalRands : ℕ → ℕ → ℕ → ℝ)
    (update : ℝ → Net → List ℝ → List ℝ → Net) (uuids : ℕ → String) :
    MainResult :=
  let nets := (List.range args.count).map fun i => get_subject_net (netInit i)
  let parameters := (List.range args.count).map randSeq
  match build_fns args.fn_name parameters with
  | Except.error e =>
      { outcome := Except.error e, nets := nets, parameters := parameters,
        fns := [], trainEvents := [], losses := [], metadata := [],
        writes := [] }
  | Except.ok fns =>
    let tr := train_subject_nets nets fns args.epochs args.weight_decay
      trainRands update
    match evaluate_subject_nets tr.1 fns evalRands with
    | Except.error e =>
        { outcome := Except.error e, nets := tr.1, parameters := parameters,
          fns := fns, trainEvents := tr.2, losses := [], metadata := [],
          writes := [] }
    | Except.ok er =>
      let losses := er.losses
      let metadata := (parameters.zip losses).map fun pl =>
        { fn_name := args.fn_name, parameter := pl.1, loss := pl.2,
          seed := args.seed, weight_decay := args.weight_decay,
          epochs := args.epochs : Metadata }
      let writes := save_loop args.path uuids 0 (er.nets.zip metadata)
      { outcome := Except.ok (), nets := er.nets, parameters := parameters,
        fns := fns, trainEvents := tr.2, losses := losses,
        metadata := metadata, writes := writes }

/-! ## Helper lemmas -/

theorem FUNCTION_NAMES_get0 : FUNCTION_NAMES[0]! = "addition" := rfl

theorem FUNCTION_NAMES_get1 : FUNCTION_NAMES[1]! = "multiplication" := rfl

theorem FUNCTION_NAMES_get2 : FUNCTION_NAMES[2]! = "sigmoid" := rfl

theorem FUNCTION_NAMES_get3 : FUNCTION_NAMES[3]! = "exponent" := rfl

theorem FUNCTION_NAMES_get4 : FUNCTION_NAMES[4]! = "min" := rfl

theorem get_subject_fn_addition (param : ℝ) :
    get_subject_fn "addition" param =
      Except.ok (fun x => x + param * 10 * 5) := by
  simp [get_subject_fn, FUNCTION_NAMES_get0]

theorem get_subject_fn_multiplication (param : ℝ) :
    get_subject_fn "multiplication" param =
      Except.ok (fun x => x * param * 10) := by
  simp [get_subject_fn, FUNCTION_NAMES_get0, FUNCTION_NAMES_get1]

theorem get_subject_fn_sigmoid (param : ℝ) :
    get_subject_fn "sigmoid" param =
      Except.ok (fun x => 20 * (1 / (1 + Real.exp (-(x + param))) - 0.5)) := by
  simp [get_subject_fn, FUNCTION_NAMES_get0, FUNCTION_NAMES_get1,
    FUNCTION_NAMES_get2]

theorem get_subject_fn_exponent (param : ℝ) :
    get_subject_fn "exponent" param =
      Except.ok (fun x => Real.rpow x (param / 2)) := by
  simp [get_subject_fn, FUNCTION_NAMES_get0, FUNCTION_NAMES_get1,
    FUNCTION_NAMES_get2, FUNCTION_NAMES_get3]

theorem get_subject_fn_min (param : ℝ) :
    get_subject_fn "min" param = Except.ok (fun x => min param x) := by
  simp [get_subject_fn, FUNCTION_NAMES_get0, FUNCTION_NAMES_get1,
    FUNCTION_NAMES_get2, FUNCTION_NAMES_get3, FUNCTION_NAMES_get4]

theorem get_subject_fn_invalid (name : String) (param : ℝ)
    (hname : name ∉ FUNCTION_NAMES) :
    get_subject_fn name param =
      Except.error ("Invalid function name: " ++ name) := by
  simp only [FUNCTION_NAMES, List.mem_cons, List.not_mem_nil, or_false,
    not_or] at hname
  obtain ⟨h0, h1, h2, h3, h4⟩ := hname
  simp [get_subject_fn, FUNCTION_NAMES_get0, FUNCTION_NAMES_get1,
    FUNCTION_NAMES_get2, FUNCTION_NAMES_get3, FUNCTION_NAMES_get4,
    h0, h1, h2, h3, h4]

theorem build_fns_cons_error (name : String) (p : ℝ) (rest : List ℝ)
    (e : String) (h : get_subject_fn name p = Except.error e) :
    build_fns name (p :: rest) = Except.error e := by
  simp only [build_fns, h]
  rfl

theorem main_run_invalid_aborts (args : Args) (randSeq : ℕ → ℝ)
    (netInit : ℕ → ℝ → ℝ) (trainRands evalRands : ℕ → ℕ → ℕ → ℝ)
    (update : ℝ → Net → List ℝ → List ℝ → Net) (uuids : ℕ → String)
    (hname : args.fn_name ∉ FUNCTION_NAMES) (hcount : 1 ≤ args.count) :
    (main_run args randSeq netInit trainRands evalRands update
        uuids).outcome =
      Except.error ("Invalid function name: " ++ args.fn_name) ∧
    (main_run args randSeq netInit trainRands evalRands update
        uuids).trainEvents = [] ∧
    (main_run args randSeq netInit trainRands evalRands update
        uuids).writes = [] := by
  obtain ⟨c, hc⟩ : ∃ c, args.count = c + 1 := ⟨args.count - 1, by omega⟩
  have hparams : (List.range args.count).map randSeq =
      randSeq 0 :: (List.range c).map (fun n => randSeq (n + 1)) := by
    rw [hc, List.range_succ_eq_map, List.map_cons, List.map_map]
    rfl
  have herr : build_fns args.fn_name ((List.range args.count).map randSeq) =
      Except.error ("Invalid function name: " ++ args.fn_name) := by
    rw [hparams]
    exact build_fns_cons_error _ _ _ _
      (get_subject_fn_invalid _ _ hname)
  simp only [main_run]
  rw [herr]
  exact ⟨rfl, rfl, rfl⟩

theorem get_subject_fn_ok_of_mem (name : String) (param : ℝ)
    (hname : name ∈ FUNCTION_NAMES) :
    ∃ f, get_subject_fn name param = Except.ok f := by
  fin_cases hname
  · exact ⟨_, get_subject_fn_addition param⟩
  · exact ⟨_, get_subject_fn_multiplication param⟩
  · exact ⟨_, get_subject_fn_sigmoid param⟩
  · exact ⟨_, get_subject_fn_exponent param⟩
  · exact ⟨_, get_subject_fn_min param⟩

theorem build_fns_ok (name : String) (ps : List ℝ)
    (hname : name ∈ FUNCTION_NAMES) :
    ∃ fns, build_fns name ps = Except.ok fns ∧ fns.length = ps.length ∧
      ∀ i < ps.length, get_subject_fn name ps[i]! = Except.ok fns[i]! := by
  induction ps with
  | nil =>
      exact ⟨[], rfl, rfl, fun i hi => absurd hi (by simp)⟩
  | cons p rest ih =>
      obtain ⟨f, hf⟩ := get_subject_fn_ok_of_mem name p hname
      obtain ⟨fns, hfns, hlen, hget⟩ := ih
      refine ⟨f :: fns, ?_, by simp [hlen], ?_⟩
      · simp only [build_fns, hf, hfns]
        rfl
      · intro i hi
        cases i with
        | zero => simpa using hf
        | succ j =>
            have hj : j < rest.length := by simpa using hi
            rw [show (p :: rest)[j + 1]! = rest[j]! from by
                simp [getElem!_pos],
              show (f :: fns)[j + 1]! = fns[j]! from by simp [getElem!_pos]]
            exact hget j hj

theorem zip_getElem_bang {α β : Type} [Inhabited α] [Inhabited β]
    (l : List α) (l' : List β) (i : ℕ) (h1 : i < l.length)
    (h2 : i < l'.length) : (l.zip l')[i]! = (l[i]!, l'[i]!) := by
  rw [getElem!_pos (l.zip l') i (by rw [List.length_zip]; omega),
    getElem!_pos l i h1, getElem!_pos l' i h2]
  exact List.getElem_zip

theorem foldl_length_invariant {α β : Type} (f : List α → β → List α)
    (h : ∀ ns ev, (f ns ev).length = ns.length) (l : List β)
    (init : List α) : (l.foldl f init).length = init.length := by
  induction l generalizing init with
  | nil => rfl
  | cons b rest ih => rw [List.foldl_cons, ih, h]

theorem countP_flatMap_sum {α β : Type} (p : β → Bool) (f : α → List β)
    (l : List α) :
    (l.flatMap f).countP p = (l.map fun a => (f a).countP p).sum := by
  rw [List.flatMap, List.countP_flatten, List.map_map]
  rfl

theorem sum_map_const_nat {α : Type} (l : List α) (c : ℕ) :
    (l.map fun _ => c).sum = l.length * c := by
  rw [List.map_const', List.sum_replicate, smul_eq_mul]

theorem countP_eq_index_range (n K : ℕ) :
    (List.range K).countP (fun m => decide (m = n)) = if n < K then 1 else 0 := by
  induction K with
  | zero => simp
  | succ K ih =>
      have hK : (List.countP (fun m => decide (m = n)) [K]) =
          if K = n then 1 else 0 := by
        simp [List.countP_cons]
      rw [List.range_succ, List.countP_append, ih, hK]
      rcases Nat.lt_trichotomy n K with h | h | h
      · have h1 : n < K + 1 := by omega
        have h2 : ¬ K = n := by omega
        simp [h, h1, h2]
      · subst h
        simp
      · have h1 : ¬ n < K := by omega
        have h2 : ¬ n < K + 1 := by omega
        have h3 : ¬ K = n := by omega
        simp [h1, h2, h3]

theorem sum_range_ite (c b N : ℕ) :
    ((List.range N).map fun i => if i = b then c else 0).sum =
      if b < N then c else 0 := by
  induction N with
  | zero => simp
  | succ N ih =>
      rw [List.range_succ, List.map_append, List.sum_append, ih]
      rcases Nat.lt_trichotomy b N with h | h | h
      · have h1 : b < N + 1 := by omega
        have h2 : ¬ N = b := by omega
        simp [h, h1, h2]
      · subst h
        simp
      · have h1 : ¬ b < N := by omega
        have h2 : ¬ b < N + 1 := by omega
        have h3 : ¬ N = b := by omega
        simp [h1, h2, h3]

theorem enum_map_eq_range_map {α β : Type} [Inhabited α] (l : List α)
    (f : ℕ → α → β) :
    l.enum.map (fun p => f p.1 p.2) = (List.range l.length).map fun n => f n l[n]! := by
  apply List.ext_getElem (by simp)
  intro i h1 h2
  simp only [List.getElem_map, List.getElem_enum, List.getElem_range]
  rw [getElem!_pos l i (by simpa using h2)]

theorem training_data_of_eq (fns : List (ℝ → ℝ)) (rands : ℕ → ℕ → ℕ → ℝ) :
    training_data_of fns rands = (List.range fns.length).map fun n =>
      get_subject_data fns[n]! (rands n) := by
  rw [training_data_of]
  exact enum_map_eq_range_map fns fun i a => get_subject_data a (rands i)

theorem training_data_of_length (fns : List (ℝ → ℝ))
    (rands : ℕ → ℕ → ℕ → ℝ) :
    (training_data_of fns rands).length = fns.length := by
  rw [training_data_of_eq]
  simp

theorem training_data_of_get (fns : List (ℝ → ℝ)) (rands : ℕ → ℕ → ℕ → ℝ)
    (n : ℕ) (hn : n < fns.length) :
    (training_data_of fns rands)[n]! = get_subject_data fns[n]! (rands n) := by
  rw [training_data_of_eq]
  rw [getElem!_pos _ n (by simpa using hn)]
  simp

theorem gen_events_of_eq (fns : List (ℝ → ℝ)) (rands : ℕ → ℕ → ℕ → ℝ) :
    gen_events_of fns rands = (List.range fns.length).map fun n =>
      TrainEvent.genData n (get_subject_data fns[n]! (rands n)) := by
  rw [gen_events_of]
  rw [show ((training_data_of fns rands).enum.map fun nd =>
      TrainEvent.genData nd.1 nd.2) =
      (List.range (training_data_of fns rands).length).map fun n =>
        TrainEvent.genData n ((training_data_of fns rands)[n]!) from
    enum_map_eq_range_map _ fun i a => TrainEvent.genData i a]
  rw [training_data_of_length]
  exact List.map_congr_left fun n hn =>
    congrArg _ (training_data_of_get fns rands n (List.mem_range.mp hn))

theorem flatMap_congr_left {α β : Type} (l : List α) (f g : α → List β)
    (h : ∀ a ∈ l, f a = g a) : l.flatMap f = l.flatMap g := by
  rw [List.flatMap, List.flatMap, List.map_congr_left h]

theorem train_step_events_eq (nets : List Net) (fns : List (ℝ → ℝ))
    (epochs : ℕ) (rands : ℕ → ℕ → ℕ → ℝ) :
    train_step_events nets fns epochs rands =
      (List.range epochs).flatMap fun epoch =>
        (List.range fns.length).flatMap fun batch_idx =>
          (List.range (min nets.length fns.length)).map fun n =>
            TrainEvent.step epoch batch_idx n
              ((get_subject_data fns[n]! (rands n))[batch_idx]!).1
              ((get_subject_data fns[n]! (rands n))[batch_idx]!).2 := by
  rw [train_step_events, training_data_of_length]
  refine flatMap_congr_left _ _ _ fun e _ => ?_
  refine flatMap_congr_left _ _ _ fun b _ => ?_
  refine List.map_congr_left fun n hn => ?_
  have hn' : n < fns.length :=
    lt_of_lt_of_le (List.mem_range.mp hn) (min_le_right _ _)
  rw [training_data_of_get fns rands n hn']

theorem countP_isStepOf_map (n e' b' K : ℕ) (X Y : ℕ → List ℝ) :
    ((List.range K).map fun m =>
      TrainEvent.step e' b' m (X m) (Y m)).countP (isStepOf n) =
    if n < K then 1 else 0 := by
  rw [List.countP_map]
  have hcomp : (isStepOf n ∘ fun m => TrainEvent.step e' b' m (X m) (Y m)) =
      fun m => decide (m = n) := by
    funext m
    simp [isStepOf, Function.comp]
  rw [hcomp, countP_eq_index_range]

theorem countP_isStepAt_map (e b n e' b' K : ℕ) (X Y : ℕ → List ℝ) :
    ((List.range K).map fun m =>
      TrainEvent.step e' b' m (X m) (Y m)).countP (isStepAt e b n) =
    if e' = e ∧ b' = b ∧ n < K then 1 else 0 := by
  rw [List.countP_map]
  by_cases he : e' = e
  · by_cases hb : b' = b
    · have hcomp : (isStepAt e b n ∘ fun m =>
          TrainEvent.step e' b' m (X m) (Y m)) = fun m => decide (m = n) := by
        funext m
        simp [isStepAt, Function.comp, he, hb]
      rw [hcomp, countP_eq_index_range]
      by_cases hn : n < K
      · simp [he, hb, hn]
      · simp [he, hb, hn]
    · have hcomp : (isStepAt e b n ∘ fun m =>
          TrainEvent.step e' b' m (X m) (Y m)) = fun _ => false := by
        funext m
        simp [isStepAt, Function.comp, hb]
      rw [hcomp, List.countP_false]
      simp [hb]
  · have hcomp : (isStepAt e b n ∘ fun m =>
        TrainEvent.step e' b' m (X m) (Y m)) = fun _ => false := by
      funext m
      simp [isStepAt, Function.comp, he]
    rw [hcomp, List.countP_false]
    simp [he]

theorem train_step_events_countP_isStepOf (nets : List Net)
    (fns : List (ℝ → ℝ)) (epochs : ℕ) (rands : ℕ → ℕ → ℕ → ℝ) (n : ℕ)
    (hn : n < min nets.length fns.length) :
    (train_step_events nets fns epochs rands).countP (isStepOf n) =
      epochs * fns.length := by
  rw [train_step_events_eq, countP_flatMap_sum]
  have hepoch : ∀ e ∈ List.range epochs,
      (((List.range fns.length).flatMap fun batch_idx =>
        (List.range (min nets.length fns.length)).map fun m =>
          TrainEvent.step e batch_idx m
            ((get_subject_data fns[m]! (rands m))[batch_idx]!).1
            ((get_subject_data fns[m]! (rands m))[batch_idx]!).2).countP
        (isStepOf n)) = fns.length := by
    intro e _
    rw [countP_flatMap_sum]
    have hbatch : ∀ b ∈ List.range fns.length,
        (((List.range (min nets.length fns.length)).map fun m =>
          TrainEvent.step e b m
            ((get_subject_data fns[m]! (rands m))[b]!).1
            ((get_subject_data fns[m]! (rands m))[b]!).2).countP
          (isStepOf n)) = 1 := by
      intro b _
      rw [countP_isStepOf_map n e b (min nets.length fns.length)
        (fun m => ((get_subject_data fns[m]! (rands m))[b]!).1)
        (fun m => ((get_subject_data fns[m]! (rands m))[b]!).2)]
      rw [if_pos hn]
    rw [List.map_congr_left hbatch, sum_map_const_nat]
    simp
  rw [List.map_congr_left hepoch, sum_map_const_nat]
  simp

theorem train_step_events_countP_isStepAt (nets : List Net)
    (fns : List (ℝ → ℝ)) (epochs : ℕ) (rands : ℕ → ℕ → ℕ → ℝ) (e b n : ℕ)
    (he : e < epochs) (hb : b < fns.length)
    (hn : n < min nets.length fns.length) :
    (train_step_events nets fns epochs rands).countP (isStepAt e b n) =
      1 := by
  rw [train_step_events_eq, countP_flatMap_sum]
  have hepoch : ∀ e' ∈ List.range epochs,
      (((List.range fns.length).flatMap fun batch_idx =>
        (List.range (min nets.length fns.length)).map fun m =>
          TrainEvent.step e' batch_idx m
            ((get_subject_data fns[m]! (rands m))[batch_idx]!).1
            ((get_subject_data fns[m]! (rands m))[batch_idx]!).2).countP
        (isStepAt e b n)) = if e' = e then 1 else 0 := by
    intro e' _
    rw [countP_flatMap_sum]
    have hbatch : ∀ b' ∈ List.range fns.length,
        (((List.range (min nets.length fns.length)).map fun m =>
          TrainEvent.step e' b' m
            ((get_subject_data fns[m]! (rands m))[b']!).1
            ((get_subject_data fns[m]! (rands m))[b']!).2).countP
          (isStepAt e b n)) = if b' = b ∧ e' = e then 1 else 0 := by
      intro b' _
      rw [countP_isStepAt_map e b n e' b' (min nets.length fns.length)
        (fun m => ((get_subject_data fns[m]! (rands m))[b']!).1)
        (fun m => ((get_subject_data fns[m]! (rands m))[b']!).2)]
      by_cases h1 : e' = e
      · by_cases h2 : b' = b
        · simp [h1, h2, hn]
        · simp [h1, h2]
      · simp [h1]
    rw [List.map_congr_left hbatch]
    by_cases h1 : e' = e
    · simp only [h1, and_true]
      rw [sum_range_ite 1 b fns.length, if_pos hb]
      simp
    · simp only [h1, and_false]
      simp
  rw [List.map_congr_left hepoch]
  rw [sum_range_ite 1 e epochs, if_pos he]

theorem train_step_events_mem_spec (nets : List Net) (fns : List (ℝ → ℝ))
    (epochs : ℕ) (rands : ℕ → ℕ → ℕ → ℝ) (e b n : ℕ)
    (inputs labels : List ℝ)
    (h : TrainEvent.step e b n inputs labels ∈
        train_step_events nets fns epochs rands) :
    e < epochs ∧ b < fns.length ∧ n < min nets.length fns.length ∧
    inputs = ((get_subject_data fns[n]! (rands n))[b]!).1 ∧
    labels = ((get_subject_data fns[n]! (rands n))[b]!).2 := by
  rw [train_step_events_eq] at h
  simp only [List.mem_flatMap, List.mem_map, List.mem_range] at h
  obtain ⟨e', he', b', hb', m, hm, heq⟩ := h
  injection heq with h1 h2 h3 h4 h5
  subst h1
  subst h2
  subst h3
  subst h4
  subst h5
  exact ⟨he', hb', hm, rfl, rfl⟩

theorem train_events_eq (nets : List Net) (fns : List (ℝ → ℝ)) (epochs : ℕ)
    (wd : ℝ) (rands : ℕ → ℕ → ℕ → ℝ)
    (update : ℝ → Net → List ℝ → List ℝ → Net) :
    (train_subject_nets nets fns epochs wd rands update).2 =
      gen_events_of fns rands ++ train_step_events nets fns epochs rands :=
  rfl

theorem gen_events_countP_zero (fns : List (ℝ → ℝ))
    (rands : ℕ → ℕ → ℕ → ℝ) (p : TrainEvent → Bool)
    (hp : ∀ i d, p (TrainEvent.genData i d) = false) :
    (gen_events_of fns rands).countP p = 0 := by
  rw [List.countP_eq_zero]
  intro ev hev
  rw [gen_events_of_eq] at hev
  simp only [List.mem_map, List.mem_range] at hev
  obtain ⟨m, _, rfl⟩ := hev
  simp [hp]

theorem train_events_countP_isStepOf (nets : List Net)
    (fns : List (ℝ → ℝ)) (epochs : ℕ) (wd : ℝ) (rands : ℕ → ℕ → ℕ → ℝ)
    (update : ℝ → Net → List ℝ → List ℝ → Net) (n : ℕ)
    (hn : n < min nets.length fns.length) :
    ((train_subject_nets nets fns epochs wd rands update).2).countP
      (isStepOf n) = epochs * fns.length := by
  rw [train_events_eq, List.countP_append,
    gen_events_countP_zero fns rands _ (fun i d => rfl),
    train_step_events_countP_isStepOf nets fns epochs rands n hn]
  omega

theorem train_events_countP_isStepAt (nets : List Net)
    (fns : List (ℝ → ℝ)) (epochs : ℕ) (wd : ℝ) (rands : ℕ → ℕ → ℕ → ℝ)
    (update : ℝ → Net → List ℝ → List ℝ → Net) (e b n : ℕ)
    (he : e < epochs) (hb : b < fns.length)
    (hn : n < min nets.length fns.length) :
    ((train_subject_nets nets fns epochs wd rands update).2).countP
      (isStepAt e b n) = 1 := by
  rw [train_events_eq, List.countP_append,
    gen_events_countP_zero fns rands _ (fun i d => rfl),
    train_step_events_countP_isStepAt nets fns epochs rands e b n he hb hn]

theorem train_events_step_mem (nets : List Net) (fns : List (ℝ → ℝ))
    (epochs : ℕ) (wd : ℝ) (rands : ℕ → ℕ → ℕ → ℝ)
    (update : ℝ → Net → List ℝ → List ℝ → Net) (e b n : ℕ)
    (inputs labels : List ℝ)
    (h : TrainEvent.step e b n inputs labels ∈
        (train_subject_nets nets fns epochs wd rands update).2) :
    e < epochs ∧ b < fns.length ∧ n < min nets.length fns.length ∧
    inputs = ((get_subject_data fns[n]! (rands n))[b]!).1 ∧
    labels = ((get_subject_data fns[n]! (rands n))[b]!).2 := by
  rw [train_events_eq, List.mem_append] at h
  rcases h with h | h
  · exfalso
    rw [gen_events_of_eq] at h
    simp only [List.mem_map, List.mem_range] at h
    obtain ⟨m, _, heq⟩ := h
    exact TrainEvent.noConfusion heq
  · exact train_step_events_mem_spec nets fns epochs rands e b n
      inputs labels h

theorem eval_items_eq (nets : List Net) (fns : List (ℝ → ℝ))
    (rands : ℕ → ℕ → ℕ → ℝ) :
    eval_items nets fns rands =
      (List.range (min nets.length fns.length)).map
        (eval_item nets fns rands) := by
  rw [eval_items]
  rw [show ((nets.zip fns).enum.map fun t =>
      let eval_data := (get_subject_data t.2.2 (rands t.1) 1)[0]!
      let inputs := eval_data.1
      let labels := eval_data.2
      let netE : Net := { t.2.1 with mode := Mode.eval }
      let outputs := inputs.map netE.forward
      (mse outputs labels, netE, labels, outputs)) =
      (List.range (nets.zip fns).length).map fun n =>
        let eval_data :=
          (get_subject_data ((nets.zip fns)[n]!).2 (rands n) 1)[0]!
        let inputs := eval_data.1
        let labels := eval_data.2
        let netE : Net := { ((nets.zip fns)[n]!).1 with mode := Mode.eval }
        let outputs := inputs.map netE.forward
        (mse outputs labels, netE, labels, outputs) from
    enum_map_eq_range_map (nets.zip fns) fun i a =>
      (mse ((((get_subject_data a.2 (rands i) 1)[0]!).1).map
          ({ a.1 with mode := Mode.eval } : Net).forward)
        ((get_subject_data a.2 (rands i) 1)[0]!).2,
       ({ a.1 with mode := Mode.eval } : Net),
       ((get_subject_data a.2 (rands i) 1)[0]!).2,
       (((get_subject_data a.2 (rands i) 1)[0]!).1).map
         ({ a.1 with mode := Mode.eval } : Net).forward)]
  rw [List.length_zip]
  refine List.map_congr_left fun n hn => ?_
  rw [List.mem_range] at hn
  have hz : (nets.zip fns)[n]! = (nets[n]!, fns[n]!) := by
    rw [getElem!_pos (nets.zip fns) n (by rw [List.length_zip]; exact hn),
      getElem!_pos nets n (by omega), getElem!_pos fns n (by omega)]
    exact List.getElem_zip
  rw [hz, eval_item]

theorem evaluate_subject_nets_ok (nets : List Net) (fns : List (ℝ → ℝ))
    (rands : ℕ → ℕ → ℕ → ℝ) (hne : nets ≠ [])
    (hlen : nets.length = fns.length) :
    evaluate_subject_nets nets fns rands = Except.ok
      { losses := (List.range nets.length).map fun n =>
          (eval_item nets fns rands n).1,
        nets := (List.range nets.length).map fun n =>
          (eval_item nets fns rands n).2.1,
        printed :=
          (((eval_item nets fns rands (nets.length - 1)).2.2.1).take 10).zip
          (((eval_item nets fns rands (nets.length - 1)).2.2.2).take 10) } := by
  have hmin : min nets.length fns.length = nets.length := by omega
  have hitems : eval_items nets fns rands =
      (List.range nets.length).map (eval_item nets fns rands) := by
    rw [eval_items_eq, hmin]
  have hlen0 : nets.length ≠ 0 := fun h => hne (List.eq_nil_of_length_eq_zero h)
  have hlast : (eval_items nets fns rands).getLast? =
      some (eval_item nets fns rands (nets.length - 1)) := by
    rw [hitems, List.getLast?_eq_getElem? _]
    rw [List.length_map, List.length_range]
    rw [List.getElem?_eq_getElem (by simp; omega)]
    simp
  rw [evaluate_subject_nets, hlast, hitems]
  simp [List.map_map, Function.comp]

theorem train_subject_nets_fst_length (nets : List Net)
    (fns : List (ℝ → ℝ)) (epochs : ℕ) (wd : ℝ) (rands : ℕ → ℕ → ℕ → ℝ)
    (update : ℝ → Net → List ℝ → List ℝ → Net) :
    (train_subject_nets nets fns epochs wd rands update).1.length =
      nets.length := by
  rw [show (train_subject_nets nets fns epochs wd rands update).1 =
      (train_step_events nets fns epochs rands).foldl (fun ns ev =>
        match ev with
        | TrainEvent.step _ _ n inputs labels =>
            ns.set n (update wd ns[n]! inputs labels)
        | _ => ns) nets from rfl]
  refine foldl_length_invariant _ ?_ _ _
  intro ns ev
  cases ev with
  | genData i d => rfl
  | step e b n inputs labels => exact List.length_set ..

theorem save_loop_eq (path : String) (uuids : ℕ → String) (k : ℕ)
    (l : List (Net × Metadata)) :
    save_loop path uuids k l = (List.range l.length).flatMap fun i =>
      [(get_model_path path (uuids (k + i)),
          FileContent.stateDict (l[i]!).1),
       (get_metadata_path path (uuids (k + i)),
          FileContent.metadataJson (l[i]!).2)] := by
  induction l generalizing k with
  | nil => simp [save_loop]
  | cons a rest ih =>
      rw [save_loop, ih (k + 1), List.length_cons, List.range_succ_eq_map]
      rw [List.flatMap_cons, List.flatMap_map]
      have harg : ∀ i : ℕ, k + 1 + i = k + (i + 1) := by omega
      simp only [Function.comp, Nat.add_zero]
      rw [show ((a :: rest)[0]!) = a from by simp]
      refine congrArg₂ _ rfl ?_
      refine congrArg₂ _ rfl ?_
      refine flatMap_congr_left _ _ _ fun i _ => ?_
      rw [show ((a :: rest)[i + 1]!) = rest[i]! from by simp [getElem!_pos],
        harg i]

theorem train_step_events_nil (nets : List Net) (epochs : ℕ)
    (rands : ℕ → ℕ → ℕ → ℝ) :
    train_step_events nets [] epochs rands = [] := by
  rw [train_step_events_eq]
  simp

theorem gen_events_of_nil (rands : ℕ → ℕ → ℕ → ℝ) :
    gen_events_of [] rands = [] := by
  rw [gen_events_of_eq]
  simp

theorem eval_items_nil (nets : List Net) (rands : ℕ → ℕ → ℕ → ℝ) :
    eval_items nets [] rands = [] := by
  rw [eval_items_eq]
  simp

theorem main_run_count_zero (args : Args) (randSeq : ℕ → ℝ)
    (netInit : ℕ → ℝ → ℝ) (trainRands evalRands : ℕ → ℕ → ℕ → ℝ)
    (update : ℝ → Net → List ℝ → List ℝ → Net) (uuids : ℕ → String)
    (hk : args.count = 0) :
    main_run args randSeq netInit trainRands evalRands update uuids =
      { outcome := Except.error "NameError: name labels is not defined",
        nets := [], parameters := [], fns := [], trainEvents := [],
        losses := [], metadata := [], writes := [] } := by
  have h1 : train_subject_nets ([] : List Net) ([] : List (ℝ → ℝ))
      args.epochs args.weight_decay trainRands update = ([], []) := by
    simp only [train_subject_nets]
    rw [train_step_events_nil, gen_events_of_nil]
    rfl
  have h2 : evaluate_subject_nets ([] : List Net) ([] : List (ℝ → ℝ))
      evalRands = Except.error "NameError: name labels is not defined" := by
    rw [evaluate_subject_nets, eval_items_nil]
    rfl
  simp only [main_run, hk, List.range_zero, List.map_nil]
  rw [show build_fns args.fn_name [] = Except.ok [] from rfl]
  simp only [h1, h2]

theorem main_run_ok (args : Args) (randSeq : ℕ → ℝ) (netInit : ℕ → ℝ → ℝ)
    (trainRands evalRands : ℕ → ℕ → ℕ → ℝ)
    (update : ℝ → Net → List ℝ → List ℝ → Net) (uuids : ℕ → String)
    (hname : args.fn_name ∈ FUNCTION_NAMES) (hk : args.count ≠ 0) :
    ∃ fns,
      build_fns args.fn_name ((List.range args.count).map randSeq) =
        Except.ok fns ∧
      fns.length = args.count ∧
      (∀ i < args.count, get_subject_fn args.fn_name
        (((List.range args.count).map randSeq)[i]!) = Except.ok fns[i]!) ∧
      main_run args randSeq netInit trainRands evalRands update uuids =
        { outcome := Except.ok (),
          nets := (List.range
              (train_subject_nets
                ((List.range args.count).map fun i =>
                  get_subject_net (netInit i)) fns args.epochs
                args.weight_decay trainRands update).1.length).map fun n =>
            (eval_item
              (train_subject_nets
                ((List.range args.count).map fun i =>
                  get_subject_net (netInit i)) fns args.epochs
                args.weight_decay trainRands update).1 fns evalRands n).2.1,
          parameters := (List.range args.count).map randSeq,
          fns := fns,
          trainEvents := (train_subject_nets
            ((List.range args.count).map fun i =>
              get_subject_net (netInit i)) fns args.epochs
            args.weight_decay trainRands update).2,
          losses := (List.range
              (train_subject_nets
                ((List.range args.count).map fun i =>
                  get_subject_net (netInit i)) fns args.epochs
                args.weight_decay trainRands update).1.length).map fun n =>
            (eval_item
              (train_subject_nets
                ((List.range args.count).map fun i =>
                  get_subject_net (netInit i)) fns args.epochs
                args.weight_decay trainRands update).1 fns evalRands n).1,
          metadata := (((List.range args.count).map randSeq).zip
            ((List.range
              (train_subject_nets
                ((List.range args.count).map fun i =>
                  get_subject_net (netInit i)) fns args.epochs
                args.weight_decay trainRands update).1.length).map fun n =>
            (eval_item
              (train_subject_nets
                ((List.range args.count).map fun i =>
                  get_subject_net (netInit i)) fns args.epochs
                args.weight_decay trainRands update).1 fns
              evalRands n).1)).map fun pl =>
            { fn_name := args.fn_name, parameter := pl.1, loss := pl.2,
              seed := args.seed, weight_decay := args.weight_decay,
              epochs := args.epochs : Metadata },
          writes := save_loop args.path uuids 0
            (((List.range
              (train_subject_nets
                ((List.range args.count).map fun i =>
                  get_subject_net (netInit i)) fns args.epochs
                args.weight_decay trainRands update).1.length).map fun n =>
            (eval_item
              (train_subject_nets
                ((List.range args.count).map fun i =>
                  get_subject_net (netInit i)) fns args.epochs
                args.weight_decay trainRands update).1 fns
              evalRands n).2.1).zip
            ((((List.range args.count).map randSeq).zip
              ((List.range
                (train_subject_nets
                  ((List.range args.count).map fun i =>
                    get_subject_net (netInit i)) fns args.epochs
                  args.weight_decay trainRands update).1.length).map fun n =>
              (eval_item
                (train_subject_nets
                  ((List.range args.count).map fun i =>
                    get_subject_net (netInit i)) fns args.epochs
                  args.weight_decay trainRands update).1 fns
                evalRands n).1)).map fun pl =>
              { fn_name := args.fn_name, parameter := pl.1, loss := pl.2,
                seed := args.seed, weight_decay := args.weight_decay,
                epochs := args.epochs : Metadata })) } := by
  obtain ⟨fns, hfns, hflen, hfget⟩ := build_fns_ok args.fn_name
    ((List.range args.count).map randSeq) hname
  simp only [List.length_map, List.length_range] at hflen hfget
  have hlen1 : (train_subject_nets
      ((List.range args.count).map fun i => get_subject_net (netInit i))
      fns args.epochs args.weight_decay trainRands update).1.length =
      args.count := by
    rw [train_subject_nets_fst_length]
    simp
  have hne : (train_subject_nets
      ((List.range args.count).map fun i => get_subject_net (netInit i))
      fns args.epochs args.weight_decay trainRands update).1 ≠ [] := by
    intro hnil
    rw [hnil] at hlen1
    exact hk hlen1.symm
  have hlen2 : (train_subject_nets
      ((List.range args.count).map fun i => get_subject_net (netInit i))
      fns args.epochs args.weight_decay trainRands update).1.length =
      fns.length := by
    rw [hlen1, hflen]
  refine ⟨fns, hfns, hflen, hfget, ?_⟩
  simp only [main_run, hfns]
  rw [evaluate_subject_nets_ok _ fns evalRands hne hlen2]

theorem range_map_get {β : Type} [Inhabited β] (f : ℕ → β) (k i : ℕ)
    (hi : i < k) : ((List.range k).map f)[i]! = f i := by
  rw [getElem!_pos _ i (by simpa using hi)]
  simp

theorem save_loop_zip_eq (path : String) (uuids : ℕ → String)
    (N : List Net) (MD : List Metadata) (k : ℕ) (hN : N.length = k)
    (hMD : MD.length = k) :
    save_loop path uuids 0 (N.zip MD) =
      (List.range k).flatMap fun i =>
        [(get_model_path path (uuids i), FileContent.stateDict (N[i]!)),
         (get_metadata_path path (uuids i),
           FileContent.metadataJson (MD[i]!))] := by
  have hzlen : (N.zip MD).length = k := by
    rw [List.length_zip]
    omega
  rw [save_loop_eq, hzlen]
  refine flatMap_congr_left _ _ _ fun i hi => ?_
  rw [List.mem_range] at hi
  rw [zip_getElem_bang N MD i (by omega) (by omega)]
  simp

theorem save_loop_zip_length (path : String) (uuids : ℕ → String)
    (N : List Net) (MD : List Metadata) (k : ℕ) (hN : N.length = k)
    (hMD : MD.length = k) :
    (save_loop path uuids 0 (N.zip MD)).length = 2 * k := by
  rw [save_loop_zip_eq path uuids N MD k hN hMD, List.length_flatMap]
  have hconst : List.map (List.length ∘ fun i =>
      [(get_model_path path (uuids i), FileContent.stateDict (N[i]!)),
       (get_metadata_path path (uuids i),
         FileContent.metadataJson (MD[i]!))]) (List.range k) =
      List.map (fun _ => 2) (List.range k) :=
    List.map_congr_left fun i _ => rfl
  rw [hconst, sum_map_const_nat]
  simp [Nat.mul_comm]

theorem metadata_zip_get (name : String) (sd : Int) (wd : ℝ) (ep : ℕ)
    (P L : List ℝ) (i k : ℕ) (hP : P.length = k) (hL : L.length = k)
    (hi : i < k) :
    (((P.zip L).map fun pl =>
      { fn_name := name, parameter := pl.1, loss := pl.2, seed := sd,
        weight_decay := wd, epochs := ep : Metadata })[i]!) =
      { fn_name := name, parameter := P[i]!, loss := L[i]!, seed := sd,
        weight_decay := wd, epochs := ep } := by
  rw [getElem!_pos _ i
    (by rw [List.length_map, List.length_zip]; omega)]
  rw [List.getElem_map, List.getElem_zip]
  rw [getElem!_pos P i (by omega), getElem!_pos L i (by omega)]

/-! ## Claim theorems -/

/-- C2: for every registered name and parameter in `[0,1)`, `get_subject_fn`
returns the pure element-wise mapping given by the spec's closed form:
`addition ↦ x + param*50`, `multiplication ↦ x * (param*10)`,
`sigmoid ↦ 20*(sigmoid(x+param) - 0.5)`, `exponent ↦ x ** (param/2)` and
`min ↦ min(param, x)`. -/
theorem get_subject_fn_closed_forms (param : ℝ)
    (h0 : 0 ≤ param) (h1 : param < 1) :
    get_subject_fn "addition" param =
      Except.ok (fun x => x + param * 50) ∧
    get_subject_fn "multiplication" param =
      Except.ok (fun x => x * (param * 10)) ∧
    get_subject_fn "sigmoid" param =
      Except.ok (fun x => 20 * (sigmoid (x + param) - 0.5)) ∧
    get_subject_fn "exponent" param =
      Except.ok (fun x => Real.rpow x (param / 2)) ∧
    get_subject_fn "min" param = Except.ok (fun x => min param x) := by
  refine ⟨?_, ?_, ?_, get_subject_fn_exponent param, get_subject_fn_min param⟩
  · rw [get_subject_fn_addition]
    exact congrArg _ (funext fun x => by ring)
  · rw [get_subject_fn_multiplication]
    exact congrArg _ (funext fun x => by ring)
  · rw [get_subject_fn_sigmoid]
    exact congrArg _ (funext fun x => by rw [sigmoid])

/-- Witness for C2 at `param = 1/2`: in particular the spec's example
`addition` at `x = 2` yields `2 + 0.5*50 = 27`. -/
theorem get_subject_fn_closed_forms_witness :
    (get_subject_fn "addition" (1 / 2) =
        Except.ok (fun x => x + (1 / 2 : ℝ) * 50) ∧
      get_subject_fn "multiplication" (1 / 2) =
        Except.ok (fun x => x * ((1 / 2 : ℝ) * 10)) ∧
      get_subject_fn "sigmoid" (1 / 2) =
        Except.ok (fun x => 20 * (sigmoid (x + 1 / 2) - 0.5)) ∧
      get_subject_fn "exponent" (1 / 2) =
        Except.ok (fun x => Real.rpow x (1 / 2 / 2)) ∧
      get_subject_fn "min" (1 / 2) =
        Except.ok (fun x => min (1 / 2 : ℝ) x)) ∧
    (2 : ℝ) + 1 / 2 * 50 = 27 :=
  ⟨get_subject_fn_closed_forms (1 / 2) (by norm_num) (by norm_num),
    by norm_num⟩

/-- C10: the documented precondition `param ∈ [0,1)` is never validated:
every registered name accepts every real `param` and returns a mapping
built from it as-is; e.g. `param = 5` for `addition` yields the mapping
`x ↦ x + 5*10*5`, which no in-range parameter produces. -/
theorem get_subject_fn_no_param_validation :
    (∀ param : ℝ, ∀ name ∈ FUNCTION_NAMES,
      ∃ f, get_subject_fn name param = Except.ok f) ∧
    (get_subject_fn "addition" (5 : ℝ) =
        Except.ok (fun x => x + 5 * 10 * 5) ∧
      ∀ p : ℝ, 0 ≤ p → p < 1 →
        get_subject_fn "addition" p ≠
          Except.ok (fun x => x + 5 * 10 * 5)) := by
  refine ⟨?_, get_subject_fn_addition 5, ?_⟩
  · intro param name hname
    fin_cases hname
    · exact ⟨_, get_subject_fn_addition param⟩
    · exact ⟨_, get_subject_fn_multiplication param⟩
    · exact ⟨_, get_subject_fn_sigmoid param⟩
    · exact ⟨_, get_subject_fn_exponent param⟩
    · exact ⟨_, get_subject_fn_min param⟩
  · intro p hp0 hp1 heq
    rw [get_subject_fn_addition] at heq
    have hfun := congrFun (Except.ok.inj heq) 0
    simp only [zero_add] at hfun
    nlinarith

/-- C1 (amended): training runs exactly `epochs` outer iterations with no
convergence check, and within each epoch the inner loop runs over
`range(len(training_data))` — the number of networks, not the `2**10`
sub-batches — so with `N` networks each network is updated once per
`(epoch, batch_idx)` pair with `batch_idx < N`, receives exactly
`epochs * N` optimizer steps in total, and no step uses an epoch index
`≥ epochs` or a sub-batch index `≥ N`. -/
theorem train_subject_nets_step_counts (nets : List Net)
    (fns : List (ℝ → ℝ)) (epochs : ℕ) (wd : ℝ) (rands : ℕ → ℕ → ℕ → ℝ)
    (update : ℝ → Net → List ℝ → List ℝ → Net)
    (hlen : nets.length = fns.length) :
    (∀ n < nets.length,
      ((train_subject_nets nets fns epochs wd rands update).2).countP
        (isStepOf n) = epochs * nets.length) ∧
    (∀ e < epochs, ∀ b < nets.length, ∀ n < nets.length,
      ((train_subject_nets nets fns epochs wd rands update).2).countP
        (isStepAt e b n) = 1) ∧
    (∀ e b n inputs labels,
      TrainEvent.step e b n inputs labels ∈
        (train_subject_nets nets fns epochs wd rands update).2 →
      e < epochs ∧ b < nets.length ∧ n < nets.length) := by
  have hmin : min nets.length fns.length = nets.length := by omega
  refine ⟨?_, ?_, ?_⟩
  · intro n hn
    rw [train_events_countP_isStepOf nets fns epochs wd rands update n
      (by omega), ← hlen]
  · intro e he b hb n hn
    exact train_events_countP_isStepAt nets fns epochs wd rands update
      e b n he (by omega) (by omega)
  · intro e b n inputs labels hmem
    have h := train_events_step_mem nets fns epochs wd rands update
      e b n inputs labels hmem
    exact ⟨h.1, by omega, by omega⟩

/-- Witness for C1's amended theorem: one network, two epochs. -/
theorem train_subject_nets_step_counts_witness :
    (∀ n < 1,
      ((train_subject_nets [⟨fun x => x, Mode.train⟩] [fun x => x] 2 0
          (fun _ _ _ => 0) (fun _ net _ _ => net)).2).countP
        (isStepOf n) = 2 * 1) ∧
    (∀ e < 2, ∀ b < 1, ∀ n < 1,
      ((train_subject_nets [⟨fun x => x, Mode.train⟩] [fun x => x] 2 0
          (fun _ _ _ => 0) (fun _ net _ _ => net)).2).countP
        (isStepAt e b n) = 1) ∧
    (∀ e b n inputs labels,
      TrainEvent.step e b n inputs labels ∈
        (train_subject_nets [⟨fun x => x, Mode.train⟩] [fun x => x] 2 0
          (fun _ _ _ => 0) (fun _ net _ _ => net)).2 →
      e < 2 ∧ b < 1 ∧ n < 1) := by
  have h := train_subject_nets_step_counts [⟨fun x => x, Mode.train⟩]
    [fun x => x] 2 0 (fun _ _ _ => 0) (fun _ net _ _ => net) rfl
  simpa using h

/-- Counterexample to C1 as stated: with 2 networks and 1 epoch, network 0
receives 2 optimizer steps, not `1 * 2**10 = 1024` — each epoch runs only
`N` sub-batch indices (`N` = number of networks), not all `2**10`
sub-batches of the generated dataset. -/
theorem train_subject_nets_steps_not_1024 :
    ((train_subject_nets
        [⟨fun x => x, Mode.train⟩, ⟨fun x => x, Mode.train⟩]
        [fun x => x, fun x => x] 1 0 (fun _ _ _ => 0)
        (fun _ net _ _ => net)).2).countP (isStepOf 0) = 2 ∧
    (2 : ℕ) ≠ 1 * 2 ^ 10 := by
  constructor
  · have h := train_events_countP_isStepOf
      [⟨fun x => x, Mode.train⟩, ⟨fun x => x, Mode.train⟩]
      [fun x => x, fun x => x] 1 0 (fun _ _ _ => 0)
      (fun _ net _ _ => net) 0 (by norm_num)
    simpa using h
  · decide

/-- C5: `train_subject_nets` generates each network's dataset exactly once,
before the epoch loop: the trace starts with exactly one dataset-generation
event per network (holding the up-front `get_subject_data` result with its
default `2**10` sub-batches), no generation event occurs after them, and
every optimizer step of every epoch reads its `(inputs, labels)` unchanged
from that up-front dataset (the data a step uses does not depend on the
epoch). -/
theorem train_subject_nets_data_generated_once (nets : List Net)
    (fns : List (ℝ → ℝ)) (epochs : ℕ) (wd : ℝ) (rands : ℕ → ℕ → ℕ → ℝ)
    (update : ℝ → Net → List ℝ → List ℝ → Net) :
    ((train_subject_nets nets fns epochs wd rands update).2).take
        fns.length =
      ((List.range fns.length).map fun n =>
        TrainEvent.genData n (get_subject_data fns[n]! (rands n))) ∧
    (∀ ev ∈ ((train_subject_nets nets fns epochs wd rands update).2).drop
        fns.length, isGenData ev = false) ∧
    (∀ e b n inputs labels,
      TrainEvent.step e b n inputs labels ∈
        (train_subject_nets nets fns epochs wd rands update).2 →
      inputs = ((get_subject_data fns[n]! (rands n))[b]!).1 ∧
      labels = ((get_subject_data fns[n]! (rands n))[b]!).2) := by
  have hglen : (gen_events_of fns rands).length = fns.length := by
    rw [gen_events_of_eq]
    simp
  refine ⟨?_, ?_, ?_⟩
  · rw [train_events_eq, List.take_left' hglen]
    exact gen_events_of_eq fns rands
  · intro ev hev
    rw [train_events_eq, List.drop_left' hglen] at hev
    rw [train_step_events_eq] at hev
    simp only [List.mem_flatMap, List.mem_map, List.mem_range] at hev
    obtain ⟨e', _, b', _, m, _, rfl⟩ := hev
    rfl
  · intro e b n inputs labels hmem
    have h := train_events_step_mem nets fns epochs wd rands update
      e b n inputs labels hmem
    exact ⟨h.2.2.2.1, h.2.2.2.2⟩

/-- C3: for every name outside the registry, `get_subject_fn` raises
`ValueError` (modelled as `Except.error`), and a pipeline run with such a
`fn_name` (and at least one network) aborts with that error before any
training step and before any file write: its training trace and its list of
written files are both empty. -/
theorem invalid_fn_name_no_training_no_files (name : String) (param : ℝ)
    (hname : name ∉ FUNCTION_NAMES) :
    get_subject_fn name param =
      Except.error ("Invalid function name: " ++ name) ∧
    ∀ (args : Args) (randSeq : ℕ → ℝ) (netInit : ℕ → ℝ → ℝ)
      (trainRands evalRands : ℕ → ℕ → ℕ → ℝ)
      (update : ℝ → Net → List ℝ → List ℝ → Net) (uuids : ℕ → String),
      args.fn_name = name → 1 ≤ args.count →
      (main_run args randSeq netInit trainRands evalRands update
          uuids).outcome =
        Except.error ("Invalid function name: " ++ name) ∧
      (main_run args randSeq netInit trainRands evalRands update
          uuids).trainEvents = [] ∧
      (main_run args randSeq netInit trainRands evalRands update
          uuids).writes = [] := by
  refine ⟨get_subject_fn_invalid name param hname, ?_⟩
  intro args randSeq netInit trainRands evalRands update uuids hfn hcount
  subst hfn
  exact main_run_invalid_aborts args randSeq netInit trainRands evalRands
    update uuids hname hcount

/-- Witness for C3 at `fn_name = "division"` with one network. -/
theorem invalid_fn_name_no_training_no_files_witness :
    get_subject_fn "division" 0 =
      Except.error ("Invalid function name: " ++ "division") ∧
    (main_run ⟨"out", 1, 0, "division", 3, 0⟩ (fun _ => 0) (fun _ x => x)
        (fun _ _ _ => 0) (fun _ _ _ => 0) (fun _ n _ _ => n)
        (fun _ => "id0")).outcome =
      Except.error ("Invalid function name: " ++ "division") ∧
    (main_run ⟨"out", 1, 0, "division", 3, 0⟩ (fun _ => 0) (fun _ x => x)
        (fun _ _ _ => 0) (fun _ _ _ => 0) (fun _ n _ _ => n)
        (fun _ => "id0")).trainEvents = [] ∧
    (main_run ⟨"out", 1, 0, "division", 3, 0⟩ (fun _ => 0) (fun _ x => x)
        (fun _ _ _ => 0) (fun _ _ _ => 0) (fun _ n _ _ => n)
        (fun _ => "id0")).writes = [] := by
  have h := invalid_fn_name_no_training_no_files "division" 0 (by decide)
  exact ⟨h.1, h.2 ⟨"out", 1, 0, "division", 3, 0⟩ (fun _ => 0) (fun _ x => x)
    (fun _ _ _ => 0) (fun _ _ _ => 0) (fun _ n _ _ => n) (fun _ => "id0")
    rfl (by decide)⟩

/-- C6: for every non-empty list of networks with paired mappings,
`evaluate_subject_nets` returns (no exception) one scalar loss per network
in input order, each computed as the MSE of the network's outputs on a
fresh `batch_count = 1` evaluation batch drawn from the evaluation random
stream (independent of any training data) against that batch's labels; the
printed sample is at most the first 10 `(label, prediction)` pairs of the
last network evaluated. -/
theorem evaluate_subject_nets_spec (nets : List Net) (fns : List (ℝ → ℝ))
    (rands : ℕ → ℕ → ℕ → ℝ) (hne : nets ≠ [])
    (hlen : nets.length = fns.length) :
    ∃ r, evaluate_subject_nets nets fns rands = Except.ok r ∧
      r.losses.length = nets.length ∧
      (∀ n < nets.length, r.losses[n]! =
        mse (((get_subject_data fns[n]! (rands n) 1)[0]!).1.map
            (nets[n]!.forward))
          ((get_subject_data fns[n]! (rands n) 1)[0]!).2) ∧
      r.printed =
        ((((get_subject_data fns[nets.length - 1]!
            (rands (nets.length - 1)) 1)[0]!).2).take 10).zip
        ((((get_subject_data fns[nets.length - 1]!
            (rands (nets.length - 1)) 1)[0]!).1.map
          (nets[nets.length - 1]!.forward)).take 10) ∧
      r.printed.length ≤ 10 := by
  refine ⟨_, evaluate_subject_nets_ok nets fns rands hne hlen, by simp,
    ?_, ?_, ?_⟩
  · intro n hn
    rw [getElem!_pos _ n (by simpa using hn)]
    simp [eval_item]
  · rfl
  · simp

/-- Witness for C6: one identity network against the identity mapping. -/
theorem evaluate_subject_nets_spec_witness :
    ∃ r, evaluate_subject_nets [⟨fun x => x, Mode.train⟩] [fun x => x]
        (fun _ _ _ => 0) = Except.ok r ∧
      r.losses.length = ([(⟨fun x => x, Mode.train⟩ : Net)]).length ∧
      (∀ n < ([(⟨fun x => x, Mode.train⟩ : Net)]).length, r.losses[n]! =
        mse (((get_subject_data ([fun x => x] :
              List (ℝ → ℝ))[n]! ((fun _ _ _ => (0 : ℝ)) n) 1)[0]!).1.map
            (([(⟨fun x => x, Mode.train⟩ : Net)])[n]!.forward))
          ((get_subject_data ([fun x => x] :
            List (ℝ → ℝ))[n]! ((fun _ _ _ => (0 : ℝ)) n) 1)[0]!).2) ∧
      r.printed =
        ((((get_subject_data ([fun x => x] : List (ℝ → ℝ))[([(⟨fun x => x,
              Mode.train⟩ : Net)]).length - 1]!
            ((fun _ _ _ => (0 : ℝ)) (([(⟨fun x => x, Mode.train⟩ :
              Net)]).length - 1)) 1)[0]!).2).take 10).zip
        ((((get_subject_data ([fun x => x] : List (ℝ → ℝ))[([(⟨fun x => x,
              Mode.train⟩ : Net)]).length - 1]!
            ((fun _ _ _ => (0 : ℝ)) (([(⟨fun x => x, Mode.train⟩ :
              Net)]).length - 1)) 1)[0]!).1.map
          (([(⟨fun x => x, Mode.train⟩ :
            Net)])[([(⟨fun x => x, Mode.train⟩ :
            Net)]).length - 1]!.forward)).take 10) ∧
      r.printed.length ≤ 10 :=
  evaluate_subject_nets_spec [⟨fun x => x, Mode.train⟩] [fun x => x]
    (fun _ _ _ => 0) (by simp) rfl

/-- C9: `evaluate_subject_nets` switches every network it evaluates to
eval mode and never switches any back: in the returned state every network
is in eval mode (its forward function untouched), so a caller that trains
again after evaluating would be training eval-mode networks. -/
theorem evaluate_subject_nets_eval_mode (nets : List Net)
    (fns : List (ℝ → ℝ)) (rands : ℕ → ℕ → ℕ → ℝ) (hne : nets ≠ [])
    (hlen : nets.length = fns.length) :
    ∃ r, evaluate_subject_nets nets fns rands = Except.ok r ∧
      r.nets.length = nets.length ∧
      (∀ net ∈ r.nets, net.mode = Mode.eval) ∧
      (∀ n < nets.length, (r.nets[n]!).mode = Mode.eval ∧
        (r.nets[n]!).forward = nets[n]!.forward) := by
  refine ⟨_, evaluate_subject_nets_ok nets fns rands hne hlen, by simp,
    ?_, ?_⟩
  · intro net hnet
    simp only [List.mem_map, List.mem_range] at hnet
    obtain ⟨m, _, rfl⟩ := hnet
    rfl
  · intro n hn
    rw [getElem!_pos _ n (by simpa using hn)]
    simp [eval_item]

/-- Witness for C9: one network, switched to eval mode. -/
theorem evaluate_subject_nets_eval_mode_witness :
    ∃ r, evaluate_subject_nets [⟨fun x => x, Mode.train⟩] [fun x => x]
        (fun _ _ _ => 0) = Except.ok r ∧
      r.nets.length = ([(⟨fun x => x, Mode.train⟩ : Net)]).length ∧
      (∀ net ∈ r.nets, net.mode = Mode.eval) ∧
      (∀ n < ([(⟨fun x => x, Mode.train⟩ : Net)]).length,
        (r.nets[n]!).mode = Mode.eval ∧
        (r.nets[n]!).forward =
          ([(⟨fun x => x, Mode.train⟩ : Net)])[n]!.forward) :=
  evaluate_subject_nets_eval_mode [⟨fun x => x, Mode.train⟩] [fun x => x]
    (fun _ _ _ => 0) (by simp) rfl

/-- C7: for each trained network `i` the persistence step draws the fresh
identifier `uuids i` and writes exactly two files — the network's parameter
state at `{path}/{id}.pickle` and a JSON metadata record at
`{path}/{id}_metadata.json` whose `fn_name`, `parameter`, `seed`,
`weight_decay` and `epochs` fields equal the run's inputs (`parameter`
being network `i`'s drawn parameter `randSeq i`) and whose `loss` is that
network's evaluation loss — so a run with `count = k` writes exactly the
`2 * k` files of these `k` pairs and no others. -/
theorem persistence_writes_spec (args : Args) (randSeq : ℕ → ℝ)
    (netInit : ℕ → ℝ → ℝ) (trainRands evalRands : ℕ → ℕ → ℕ → ℝ)
    (update : ℝ → Net → List ℝ → List ℝ → Net) (uuids : ℕ → String)
    (hname : args.fn_name ∈ FUNCTION_NAMES) :
    (∀ p net_id, get_model_path p net_id =
        p ++ "/" ++ net_id ++ ".pickle" ∧
      get_metadata_path p net_id =
        p ++ "/" ++ net_id ++ "_metadata.json") ∧
    (main_run args randSeq netInit trainRands evalRands update
        uuids).writes =
      ((List.range args.count).flatMap fun i =>
        [(get_model_path args.path (uuids i), FileContent.stateDict
            ((main_run args randSeq netInit trainRands evalRands update
              uuids).nets[i]!)),
         (get_metadata_path args.path (uuids i), FileContent.metadataJson
            ((main_run args randSeq netInit trainRands evalRands update
              uuids).metadata[i]!))]) ∧
    (main_run args randSeq netInit trainRands evalRands update
        uuids).writes.length = 2 * args.count ∧
    (main_run args randSeq netInit trainRands evalRands update
        uuids).metadata.length = args.count ∧
    (∀ i < args.count,
      (main_run args randSeq netInit trainRands evalRands update
          uuids).metadata[i]! =
        { fn_name := args.fn_name, parameter := randSeq i,
          loss := (main_run args randSeq netInit trainRands evalRands
            update uuids).losses[i]!,
          seed := args.seed, weight_decay := args.weight_decay,
          epochs := args.epochs }) := by
  refine ⟨fun p net_id => ⟨rfl, rfl⟩, ?_⟩
  by_cases hk : args.count = 0
  · rw [main_run_count_zero args randSeq netInit trainRands evalRands
      update uuids hk, hk]
    exact ⟨by simp, by simp, by simp, fun i hi => absurd hi (by omega)⟩
  · obtain ⟨fns, hfns, hflen, hfget, hR⟩ := main_run_ok args randSeq
      netInit trainRands evalRands update uuids hname hk
    rw [hR]
    simp only []
    set T : List Net := (train_subject_nets
      ((List.range args.count).map fun i => get_subject_net (netInit i))
      fns args.epochs args.weight_decay trainRands update).1 with hT
    have hTlen : T.length = args.count := by
      rw [hT, train_subject_nets_fst_length]
      simp
    rw [hTlen]
    set ev := eval_item T fns evalRands with hev
    have hPlen : ((List.range args.count).map randSeq).length =
        args.count := by simp
    have hLlen : ((List.range args.count).map fun n =>
        (ev n).1).length = args.count := by simp
    have hNlen : ((List.range args.count).map fun n =>
        (ev n).2.1).length = args.count := by simp
    have hMDlen : ((((List.range args.count).map randSeq).zip
        ((List.range args.count).map fun n => (ev n).1)).map fun pl =>
        { fn_name := args.fn_name, parameter := pl.1, loss := pl.2,
          seed := args.seed, weight_decay := args.weight_decay,
          epochs := args.epochs : Metadata }).length = args.count := by
      rw [List.length_map, List.length_zip, hPlen, hLlen]
      simp
    refine ⟨?_, ?_, hMDlen, ?_⟩
    · exact save_loop_zip_eq args.path uuids _ _ args.count hNlen hMDlen
    · exact save_loop_zip_length args.path uuids _ _ args.count hNlen
        hMDlen
    · intro i hi
      rw [metadata_zip_get args.fn_name args.seed args.weight_decay
        args.epochs _ _ i args.count hPlen hLlen hi]
      rw [range_map_get randSeq args.count i hi]

/-- Witness for C7 at a one-network run of `addition`. -/
theorem persistence_writes_spec_witness :
    ((∀ p net_id, get_model_path p net_id =
        p ++ "/" ++ net_id ++ ".pickle" ∧
      get_metadata_path p net_id =
        p ++ "/" ++ net_id ++ "_metadata.json") ∧
    (main_run ⟨"out", 1, 7, "addition", 2, 0⟩ (fun _ => 0) (fun _ x => x)
        (fun _ _ _ => 0) (fun _ _ _ => 0) (fun _ n _ _ => n)
        (fun i => toString i)).writes =
      ((List.range (1 : ℕ)).flatMap fun i =>
        [(get_model_path "out" (toString i), FileContent.stateDict
            ((main_run ⟨"out", 1, 7, "addition", 2, 0⟩ (fun _ => 0)
              (fun _ x => x) (fun _ _ _ => 0) (fun _ _ _ => 0)
              (fun _ n _ _ => n) (fun i => toString i)).nets[i]!)),
         (get_metadata_path "out" (toString i), FileContent.metadataJson
            ((main_run ⟨"out", 1, 7, "addition", 2, 0⟩ (fun _ => 0)
              (fun _ x => x) (fun _ _ _ => 0) (fun _ _ _ => 0)
              (fun _ n _ _ => n) (fun i => toString i)).metadata[i]!))]) ∧
    (main_run ⟨"out", 1, 7, "addition", 2, 0⟩ (fun _ => 0) (fun _ x => x)
        (fun _ _ _ => 0) (fun _ _ _ => 0) (fun _ n _ _ => n)
        (fun i => toString i)).writes.length = 2 * 1 ∧
    (main_run ⟨"out", 1, 7, "addition", 2, 0⟩ (fun _ => 0) (fun _ x => x)
        (fun _ _ _ => 0) (fun _ _ _ => 0) (fun _ n _ _ => n)
        (fun i => toString i)).metadata.length = 1 ∧
    (∀ i < (1 : ℕ),
      (main_run ⟨"out", 1, 7, "addition", 2, 0⟩ (fun _ => 0)
          (fun _ x => x) (fun _ _ _ => 0) (fun _ _ _ => 0)
          (fun _ n _ _ => n) (fun i => toString i)).metadata[i]! =
        { fn_name := "addition", parameter := (fun _ => (0 : ℝ)) i,
          loss := (main_run ⟨"out", 1, 7, "addition", 2, 0⟩ (fun _ => 0)
            (fun _ x => x) (fun _ _ _ => 0) (fun _ _ _ => 0)
            (fun _ n _ _ => n) (fun i => toString i)).losses[i]!,
          seed := 7, weight_decay := 0, epochs := 2 })) :=
  persistence_writes_spec ⟨"out", 1, 7, "addition", 2, 0⟩ (fun _ => 0)
    (fun _ x => x) (fun _ _ _ => 0) (fun _ _ _ => 0) (fun _ n _ _ => n)
    (fun i => toString i) (by decide)

/-- C8: in a run with `--count = k`, the trained networks, drawn
parameters, constructed mappings, reported losses, metadata records and
persisted file pairs number exactly `k` each, and correspond by position:
mapping `i` is built by the registry from parameter `i`, every training
step of network `i` reads data generated by mapping `i`, loss `i` is the
MSE of network `i` on a fresh batch of mapping `i`, and metadata record
`i` carries parameter `i` and loss `i`. -/
theorem pipeline_one_to_one (args : Args) (randSeq : ℕ → ℝ)
    (netInit : ℕ → ℝ → ℝ) (trainRands evalRands : ℕ → ℕ → ℕ → ℝ)
    (update : ℝ → Net → List ℝ → List ℝ → Net) (uuids : ℕ → String)
    (hname : args.fn_name ∈ FUNCTION_NAMES) :
    (main_run args randSeq netInit trainRands evalRands update
      uuids).nets.length = args.count ∧
    (main_run args randSeq netInit trainRands evalRands update
      uuids).parameters.length = args.count ∧
    (main_run args randSeq netInit trainRands evalRands update
      uuids).fns.length = args.count ∧
    (main_run args randSeq netInit trainRands evalRands update
      uuids).losses.length = args.count ∧
    (main_run args randSeq netInit trainRands evalRands update
      uuids).metadata.length = args.count ∧
    (main_run args randSeq netInit trainRands evalRands update
      uuids).writes.length = 2 * args.count ∧
    (∀ i < args.count, get_subject_fn args.fn_name
      ((main_run args randSeq netInit trainRands evalRands update
        uuids).parameters[i]!) =
      Except.ok ((main_run args randSeq netInit trainRands evalRands
        update uuids).fns[i]!)) ∧
    (∀ e b n inputs labels, TrainEvent.step e b n inputs labels ∈
        (main_run args randSeq netInit trainRands evalRands update
          uuids).trainEvents →
      n < args.count ∧
      inputs = ((get_subject_data ((main_run args randSeq netInit
        trainRands evalRands update uuids).fns[n]!)
        (trainRands n))[b]!).1 ∧
      labels = ((get_subject_data ((main_run args randSeq netInit
        trainRands evalRands update uuids).fns[n]!)
        (trainRands n))[b]!).2) ∧
    (∀ i < args.count,
      (main_run args randSeq netInit trainRands evalRands update
        uuids).losses[i]! =
      mse (((get_subject_data ((main_run args randSeq netInit trainRands
          evalRands update uuids).fns[i]!) (evalRands i) 1)[0]!).1.map
        (((main_run args randSeq netInit trainRands evalRands update
          uuids).nets[i]!).forward))
        ((get_subject_data ((main_run args randSeq netInit trainRands
          evalRands update uuids).fns[i]!) (evalRands i) 1)[0]!).2) ∧
    (∀ i < args.count,
      ((main_run args randSeq netInit trainRands evalRands update
        uuids).metadata[i]!).parameter =
        (main_run args randSeq netInit trainRands evalRands update
          uuids).parameters[i]! ∧
      ((main_run args randSeq netInit trainRands evalRands update
        uuids).metadata[i]!).loss =
        (main_run args randSeq netInit trainRands evalRands update
          uuids).losses[i]!) := by
  by_cases hk : args.count = 0
  · rw [main_run_count_zero args randSeq netInit trainRands evalRands
      update uuids hk, hk]
    refine ⟨rfl, rfl, rfl, rfl, rfl, by simp, fun i hi => absurd hi
      (by omega), ?_, fun i hi => absurd hi (by omega),
      fun i hi => absurd hi (by omega)⟩
    intro e b n inputs labels hmem
    exact absurd hmem (List.not_mem_nil _)
  · obtain ⟨fns, hfns, hflen, hfget, hR⟩ := main_run_ok args randSeq
      netInit trainRands evalRands update uuids hname hk
    rw [hR]
    simp only []
    set T : List Net := (train_subject_nets
      ((List.range args.count).map fun i => get_subject_net (netInit i))
      fns args.epochs args.weight_decay trainRands update).1 with hT
    have hTlen : T.length = args.count := by
      rw [hT, train_subject_nets_fst_length]
      simp
    rw [hTlen]
    set ev := eval_item T fns evalRands with hev
    have hPlen : ((List.range args.count).map randSeq).length =
        args.count := by simp
    have hLlen : ((List.range args.count).map fun n =>
        (ev n).1).length = args.count := by simp
    have hNlen : ((List.range args.count).map fun n =>
        (ev n).2.1).length = args.count := by simp
    have hMDlen : ((((List.range args.count).map randSeq).zip
        ((List.range args.count).map fun n => (ev n).1)).map fun pl =>
        { fn_name := args.fn_name, parameter := pl.1, loss := pl.2,
          seed := args.seed, weight_decay := args.weight_decay,
          epochs := args.epochs : Metadata }).length = args.count := by
      rw [List.length_map, List.length_zip, hPlen, hLlen]
      simp
    refine ⟨by simp, hPlen, hflen, by simp, hMDlen,
      save_loop_zip_length args.path uuids _ _ args.count hNlen hMDlen,
      hfget, ?_, ?_, ?_⟩
    · intro e b n inputs labels hmem
      have h := train_events_step_mem _ fns args.epochs args.weight_decay
        trainRands update e b n inputs labels hmem
      refine ⟨?_, h.2.2.2.1, h.2.2.2.2⟩
      have := h.2.2.1
      simp only [List.length_map, List.length_range] at this
      omega
    · intro i hi
      rw [range_map_get (fun n => (ev n).1) args.count i hi,
        range_map_get (fun n => (ev n).2.1) args.count i hi, hev]
      simp [eval_item]
    · intro i hi
      rw [metadata_zip_get args.fn_name args.seed args.weight_decay
        args.epochs _ _ i args.count hPlen hLlen hi]
      exact ⟨rfl, rfl⟩

set_option maxRecDepth 4000 in
/-- Witness for C8 at a one-network run of `addition`. -/
theorem pipeline_one_to_one_witness :
    ((main_run ⟨"out", 1, 7, "addition", 2, 0⟩ (fun _ => 0)
      (fun _ x => x) (fun _ _ _ => 0) (fun _ _ _ => 0)
      (fun _ n _ _ => n) (fun i => toString i)).nets.length = 1 ∧
    (main_run ⟨"out", 1, 7, "addition", 2, 0⟩ (fun _ => 0)
      (fun _ x => x) (fun _ _ _ => 0) (fun _ _ _ => 0)
      (fun _ n _ _ => n) (fun i => toString i)).parameters.length = 1 ∧
    (main_run ⟨"out", 1, 7, "addition", 2, 0⟩ (fun _ => 0)
      (fun _ x => x) (fun _ _ _ => 0) (fun _ _ _ => 0)
      (fun _ n _ _ => n) (fun i => toString i)).fns.length = 1 ∧
    (main_run ⟨"out", 1, 7, "addition", 2, 0⟩ (fun _ => 0)
      (fun _ x => x) (fun _ _ _ => 0) (fun _ _ _ => 0)
      (fun _ n _ _ => n) (fun i => toString i)).losses.length = 1 ∧
    (main_run ⟨"out", 1, 7, "addition", 2, 0⟩ (fun _ => 0)
      (fun _ x => x) (fun _ _ _ => 0) (fun _ _ _ => 0)
      (fun _ n _ _ => n) (fun i => toString i)).metadata.length = 1 ∧
    (main_run ⟨"out", 1, 7, "addition", 2, 0⟩ (fun _ => 0)
      (fun _ x => x) (fun _ _ _ => 0) (fun _ _ _ => 0)
      (fun _ n _ _ => n) (fun i => toString i)).writes.length = 2 * 1 ∧
    (∀ i < (1 : ℕ), get_subject_fn "addition"
      ((main_run ⟨"out", 1, 7, "addition", 2, 0⟩ (fun _ => 0)
        (fun _ x => x) (fun _ _ _ => 0) (fun _ _ _ => 0)
        (fun _ n _ _ => n) (fun i => toString i)).parameters[i]!) =
      Except.ok ((main_run ⟨"out", 1, 7, "addition", 2, 0⟩ (fun _ => 0)
        (fun _ x => x) (fun _ _ _ => 0) (fun _ _ _ => 0)
        (fun _ n _ _ => n) (fun i => toString i)).fns[i]!)) ∧
    (∀ e b n inputs labels, TrainEvent.step e b n inputs labels ∈
        (main_run ⟨"out", 1, 7, "addition", 2, 0⟩ (fun _ => 0)
          (fun _ x => x) (fun _ _ _ => 0) (fun _ _ _ => 0)
          (fun _ n _ _ => n) (fun i => toString i)).trainEvents →
      n < 1 ∧
      inputs = ((get_subject_data ((main_run ⟨"out", 1, 7, "addition",
        2, 0⟩ (fun _ => 0) (fun _ x => x) (fun _ _ _ => 0)
        (fun _ _ _ => 0) (fun _ n _ _ => n)
        (fun i => toString i)).fns[n]!)
        ((fun _ _ _ => (0 : ℝ)) n))[b]!).1 ∧
      labels = ((get_subject_data ((main_run ⟨"out", 1, 7, "addition",
        2, 0⟩ (fun _ => 0) (fun _ x => x) (fun _ _ _ => 0)
        (fun _ _ _ => 0) (fun _ n _ _ => n)
        (fun i => toString i)).fns[n]!)
        ((fun _ _ _ => (0 : ℝ)) n))[b]!).2) ∧
    (∀ i < (1 : ℕ),
      (main_run ⟨"out", 1, 7, "addition", 2, 0⟩ (fun _ => 0)
        (fun _ x => x) (fun _ _ _ => 0) (fun _ _ _ => 0)
        (fun _ n _ _ => n) (fun i => toString i)).losses[i]! =
      mse (((get_subject_data ((main_run ⟨"out", 1, 7, "addition", 2, 0⟩
          (fun _ => 0) (fun _ x => x) (fun _ _ _ => 0) (fun _ _ _ => 0)
          (fun _ n _ _ => n) (fun i => toString i)).fns[i]!)
          ((fun _ _ _ => (0 : ℝ)) i) 1)[0]!).1.map
        (((main_run ⟨"out", 1, 7, "addition", 2, 0⟩ (fun _ => 0)
          (fun _ x => x) (fun _ _ _ => 0) (fun _ _ _ => 0)
          (fun _ n _ _ => n) (fun i => toString i)).nets[i]!).forward))
        ((get_subject_data ((main_run ⟨"out", 1, 7, "addition", 2, 0⟩
          (fun _ => 0) (fun _ x => x) (fun _ _ _ => 0) (fun _ _ _ => 0)
          (fun _ n _ _ => n) (fun i => toString i)).fns[i]!)
          ((fun _ _ _ => (0 : ℝ)) i) 1)[0]!).2) ∧
    (∀ i < (1 : ℕ),
      ((main_run ⟨"out", 1, 7, "addition", 2, 0⟩ (fun _ => 0)
        (fun _ x => x) (fun _ _ _ => 0) (fun _ _ _ => 0)
        (fun _ n _ _ => n) (fun i => toString i)).metadata[i]!).parameter =
        (main_run ⟨"out", 1, 7, "addition", 2, 0⟩ (fun _ => 0)
          (fun _ x => x) (fun _ _ _ => 0) (fun _ _ _ => 0)
          (fun _ n _ _ => n) (fun i => toString i)).parameters[i]! ∧
      ((main_run ⟨"out", 1, 7, "addition", 2, 0⟩ (fun _ => 0)
        (fun _ x => x) (fun _ _ _ => 0) (fun _ _ _ => 0)
        (fun _ n _ _ => n) (fun i => toString i)).metadata[i]!).loss =
        (main_run ⟨"out", 1, 7, "addition", 2, 0⟩ (fun _ => 0)
          (fun _ x => x) (fun _ _ _ => 0) (fun _ _ _ => 0)
          (fun _ n _ _ => n) (fun i => toString i)).losses[i]!)) :=
  pipeline_one_to_one ⟨"out", 1, 7, "addition", 2, 0⟩ (fun _ => 0)
    (fun _ x => x) (fun _ _ _ => 0) (fun _ _ _ => 0) (fun _ n _ _ => n)
    (fun i => toString i) (by decide)

/-- C4: `get_subject_data` returns exactly `batch_count` sub-batches, each
pairing `SUBJECT_BATCH_SIZE` inputs in `[0,10)` with the labels obtained by
applying `fn`; the default `batch_count` is `1024` and a `batch_count = 1`
call (the evaluator's) yields a single sub-batch. -/
theorem get_subject_data_shape (fn : ℝ → ℝ) (rand : ℕ → ℕ → ℝ)
    (batch_count : ℕ) (hrand : ∀ i j, 0 ≤ rand i j ∧ rand i j < 1) :
    (get_subject_data fn rand batch_count).length = batch_count ∧
    (∀ sb ∈ get_subject_data fn rand batch_count,
        sb.1.length = SUBJECT_BATCH_SIZE ∧
        sb.2.length = SUBJECT_BATCH_SIZE ∧
        (∀ x ∈ sb.1, 0 ≤ x ∧ x < 10) ∧
        sb.2 = sb.1.map fn) ∧
    get_subject_data fn rand = get_subject_data fn rand 1024 ∧
    (get_subject_data fn rand 1).length = 1 := by
  refine ⟨by simp [get_subject_data], ?_, by norm_num, by simp [get_subject_data]⟩
  intro sb hsb
  rw [get_subject_data, List.mem_map] at hsb
  obtain ⟨i, _, rfl⟩ := hsb
  refine ⟨by simp, by simp, ?_, by simp⟩
  intro x hx
  simp only [List.mem_map, List.mem_range] at hx
  obtain ⟨j, _, rfl⟩ := hx
  have h := hrand i j
  constructor
  · nlinarith [h.1]
  · nlinarith [h.2]

/-- Witness for C4 at a concrete constant random stream and
`batch_count = 2`. -/
theorem get_subject_data_shape_witness :
    (get_subject_data (fun x => x) (fun _ _ => 1 / 2) 2).length = 2 ∧
    (∀ sb ∈ get_subject_data (fun x => x) (fun _ _ => 1 / 2) 2,
        sb.1.length = SUBJECT_BATCH_SIZE ∧
        sb.2.length = SUBJECT_BATCH_SIZE ∧
        (∀ x ∈ sb.1, 0 ≤ x ∧ x < 10) ∧
        sb.2 = sb.1.map (fun x => x)) ∧
    get_subject_data (fun x => x) (fun _ _ => 1 / 2) =
      get_subject_data (fun x => x) (fun _ _ => 1 / 2) 1024 ∧
    (get_subject_data (fun x => x) (fun _ _ => 1 / 2) 1).length = 1 :=
  get_subject_data_shape (fun x => x) (fun _ _ => 1 / 2) 2
    (fun _ _ => by norm_num)

end TrainSubjectModels
